import Mathlib

set_option maxRecDepth 100000

/-!
Verification development for the `machine-learning-lecture` repository,
which consists of two Jupyter notebooks:

* `smd_boosting.ipynb` — classical ensemble classifiers (decision tree,
  AdaBoost, gradient boosting, random forest) applied to CTA event data;
* `smd_neural_networks_torch.ipynb` — fully-connected and convolutional
  networks trained on MNIST and CIFAR-10 with PyTorch.

The development has two layers.

1. A syntactic layer: a transcription of every function/method call made by
   notebook code (top-level cells and bodies of notebook-defined functions),
   in source order, together with statement skeletons of the functions the
   notebooks define.  Claims about provenance (library vs repository code),
   exception handling, external resources, concurrency and call ordering are
   settled against this transcription.

2. A semantic layer: executable shallow embeddings of the functions the
   notebooks define (`preprocess`, `feature_generation`, `train_test_split`
   usage, `train`, `test`, `accuracy`, `predictions`, `read_events`), with
   library primitives taken as parameters and Python floats modelled as `ℚ`.
-/

namespace MLLecture

/-! ## Syntactic layer: calls -/

/-- `p` is a prefix of `s` (on the underlying character lists, so that it
evaluates inside the kernel). -/
def strStartsWith (p s : String) : Bool := p.toList.isPrefixOf s.toList

/-- A Python call site: the source text of the callee (dotted path as
written), and the source texts of its arguments.  Python string-literal
arguments are transcribed without their quote characters; purely cosmetic
arguments (plot label/format strings) are elided. -/
structure PyCall where
  callee : String
  args : List String
deriving DecidableEq, Repr

/-- Kinds of Python statements appearing in the notebooks. -/
inductive StmtKind
  | assign      -- `x = e` (also augmented `x += e` and subscript targets)
  | exprStmt    -- a bare expression statement
  | forLoop     -- `for ... in ...:`
  | withBlock   -- `with ...:`
  | ret         -- `return ...`
  | tryBlock    -- `try:` (none occur in the notebooks)
  | raiseStmt   -- `raise ...` (none occur in the notebooks)
deriving DecidableEq, Repr

/-- A statement of a notebook-defined function body, flattened: `depth` is
the nesting depth inside the body (0 = top of the body), `calls` the calls
made by the statement's own expressions (not those of nested statements,
which follow in the list at greater depth). -/
structure Stmt where
  kind : StmtKind
  depth : Nat
  calls : List PyCall
deriving DecidableEq, Repr

/-- A function (or method) defined by notebook code. -/
structure PyDef where
  name : String
  params : List String
  body : List Stmt
deriving DecidableEq, Repr

/-- All calls of a definition's body. -/
def PyDef.bodyCalls (d : PyDef) : List PyCall :=
  (d.body.map Stmt.calls).flatten

/-- Does the body contain a `try`/`except` or a `raise`? -/
def PyDef.handlesErrors (d : PyDef) : Bool :=
  d.body.any (fun s => s.kind == StmtKind.tryBlock || s.kind == StmtKind.raiseStmt)

/-- Does the body contain a `for` loop? -/
def PyDef.containsForLoop (d : PyDef) : Bool :=
  d.body.any (fun s => s.kind == StmtKind.forLoop)

/-! ## Transcription of `smd_boosting.ipynb`

Function definitions first, then the full call inventory in source order.
Python string-literal arguments are transcribed without quotes. -/

/-- `read_events` as defined in `smd_boosting.ipynb`. -/
def read_events_def : PyDef :=
  { name := "read_events"
    params := ["path"]
    body :=
      [ ⟨StmtKind.assign, 0,
          [⟨"TableLoader",
            ["path", "load_dl2_geometry=True", "load_instrument=True",
             "load_simulated=True"]⟩]⟩
      , ⟨StmtKind.assign, 0, [⟨"loader.read_telescope_events", []⟩]⟩
      , ⟨StmtKind.exprStmt, 0,
          [⟨"table.remove_columns",
            ["[tels_with_trigger, HillasReconstructor_tel_ids]"]⟩]⟩
      , ⟨StmtKind.ret, 0, [⟨"table.to_pandas", []⟩]⟩ ] }

/-- `preprocess` as defined in `smd_boosting.ipynb`. -/
def preprocess_def : PyDef :=
  { name := "preprocess"
    params := ["df"]
    body :=
      [ ⟨StmtKind.assign, 0,
          [⟨"df.filter", ["regex=^(?!true_|obs_id|event_id).*$"]⟩]⟩
      , ⟨StmtKind.assign, 0, [⟨"df.select_dtypes", ["exclude=[number]"]⟩]⟩
      , ⟨StmtKind.assign, 0, [⟨"df.drop", ["c", "axis=columns"]⟩]⟩
      , ⟨StmtKind.assign, 0, [⟨"df.count", []⟩]⟩
      , ⟨StmtKind.assign, 0, [⟨"df.drop", ["c", "axis=columns"]⟩]⟩
      , ⟨StmtKind.assign, 0, [⟨"df.describe", []⟩]⟩
      , ⟨StmtKind.assign, 0, [⟨"df.drop", ["c", "axis=columns"]⟩]⟩
      , ⟨StmtKind.assign, 0, [⟨"df.dropna", []⟩]⟩
      , ⟨StmtKind.ret, 0, []⟩ ] }

/-- `feature_generation` as defined in `smd_boosting.ipynb`. -/
def feature_generation_def : PyDef :=
  { name := "feature_generation"
    params := ["df"]
    body :=
      [ ⟨StmtKind.assign, 0, []⟩   -- df[awesome_feature] = arithmetic on columns
      , ⟨StmtKind.assign, 0, [⟨"np.sqrt", ["sum of squared column differences"]⟩]⟩
      , ⟨StmtKind.ret, 0, []⟩ ] }

/-- The function definitions of `smd_boosting.ipynb`. -/
def boostingDefs : List PyDef :=
  [read_events_def, preprocess_def, feature_generation_def]

/-- Calls of `smd_boosting.ipynb`, part 1 (javascript cell through the peek
at the subarray).  Purely cosmetic string arguments (plot labels, format
strings) are elided; Python string literals are transcribed without their
quote characters. -/
def boostingCallsA : List PyCall :=
  -- %%javascript cell
  [ ⟨"$.getScript",
     ["https://kmahelona.github.io/ipython_notebook_goodies/ipython_notebook_toc.js"]⟩
  -- style cell
  , ⟨"plots.set_plot_style", []⟩
  -- dataset paths
  , ⟨"get_dataset_path", ["gamma_diffuse_dl2_train_small.dl2.h5"]⟩
  , ⟨"get_dataset_path", ["proton_dl2_train_small.dl2.h5"]⟩
  -- peek at the subarray
  , ⟨"TableLoader", ["gamma_path"]⟩
  , ⟨"loader.subarray.peek", []⟩ ]

/-- Calls of `smd_boosting.ipynb`, part 2 (loading and inline preprocessing
of the gamma events). -/
def boostingCallsB : List PyCall :=
  [ ⟨"read_events", ["gamma_path"]⟩
  , ⟨"len", ["gammas.columns"]⟩
  -- inline preprocessing of `gammas`
  , ⟨"gammas.filter", ["regex=^(?!true_|obs_id|event_id).*$"]⟩
  , ⟨"len", ["gammas.columns"]⟩
  , ⟨"gammas.select_dtypes", ["exclude=[number]"]⟩
  , ⟨"print", ["Removed columns:", "c.values"]⟩
  , ⟨"gammas.drop", ["c", "axis=columns"]⟩
  , ⟨"gammas.describe", []⟩
  , ⟨"print", ["Removed columns:", "c.values"]⟩
  , ⟨"gammas.drop", ["c", "axis=columns"]⟩
  , ⟨"gammas.count", []⟩
  , ⟨"print", ["Removed columns:", "c.values"]⟩
  , ⟨"gammas.drop", ["c", "axis=columns"]⟩
  , ⟨"print", ["len(gammas)"]⟩
  , ⟨"len", ["gammas"]⟩
  , ⟨"gammas.dropna", []⟩
  , ⟨"print", ["len(gammas)"]⟩
  , ⟨"len", ["gammas"]⟩ ]

/-- Calls of `smd_boosting.ipynb`, part 3a (loading and preprocessing the
proton events). -/
def boostingCallsC0 : List PyCall :=
  [ ⟨"read_events", ["proton_path"]⟩
  , ⟨"preprocess", ["protons"]⟩ ]

/-- Calls of `smd_boosting.ipynb`, part 3b (feature generation
applications, histogram, building X and y, split). -/
def boostingCallsC : List PyCall :=
  [ ⟨"feature_generation", ["gammas"]⟩
  , ⟨"feature_generation", ["protons"]⟩
  -- histogram cell
  , ⟨"np.linspace", ["-20", "20", "100"]⟩
  , ⟨"np.arange", ["0", "10"]⟩
  , ⟨"np.geomspace", ["1e3", "30e3", "51"]⟩
  , ⟨"plt.figure", []⟩
  , ⟨"plt.hist", ["gammas[col]", "bins=bins", "histtype=step", "lw=2",
                  "label=Gammas", "density=True"]⟩
  , ⟨"plt.hist", ["protons[col]", "bins=bins", "histtype=step", "lw=2",
                  "label=Protons", "density=True"]⟩
  , ⟨"plt.xscale", ["log"]⟩
  , ⟨"plt.xlabel", ["col"]⟩
  , ⟨"plt.legend", []⟩
  -- build X and y
  , ⟨"pd.concat", ["[gammas, protons]"]⟩
  , ⟨"np.concatenate", ["[np.ones(len(gammas)), np.zeros(len(protons))]"]⟩
  , ⟨"np.ones", ["len(gammas)"]⟩
  , ⟨"len", ["gammas"]⟩
  , ⟨"np.zeros", ["len(protons)"]⟩
  , ⟨"len", ["protons"]⟩
  -- split cell
  , ⟨"train_test_split", ["X", "y"]⟩ ]

/-- Calls of `smd_boosting.ipynb`, part 4 (decision tree, its metrics,
cross validation). -/
def boostingCallsD : List PyCall :=
  -- decision tree cell
  [ ⟨"DecisionTreeClassifier", ["max_depth=15", "criterion=entropy"]⟩
  , ⟨"rf.fit", ["X_train", "y_train"]⟩
  , ⟨"rf.predict", ["X_test"]⟩
  , ⟨"rf.predict_proba", ["X_test"]⟩
  -- feature importance cell
  , ⟨"pd.Series", ["rf.feature_importances_", "index=gammas.columns"]⟩
  , ⟨"plt.figure", []⟩
  , ⟨"importance.sort_values", []⟩
  , ⟨"tail", ["20"]⟩
  , ⟨"plot.barh", []⟩
  -- metrics cell
  , ⟨"accuracy_score", ["y_test", "y_prediction"]⟩
  , ⟨"roc_auc_score", ["y_test", "y_prediction_proba[:, 1]"]⟩
  , ⟨"roc_curve", ["y_test", "y_prediction_proba[:, 1]"]⟩
  -- ROC plot cell
  , ⟨"plt.figure", []⟩
  , ⟨"plt.scatter", ["fpr", "tpr", "c=thresholds", "vmax=1"]⟩
  , ⟨"plt.xlabel", ["FPR"]⟩
  , ⟨"plt.ylabel", ["TPR"]⟩
  , ⟨"plt.gca", []⟩
  , ⟨"set_aspect", ["1"]⟩
  , ⟨"plt.plot", ["fpr", "tpr", "--", "color=gray", "alpha=0.5"]⟩
  , ⟨"plt.text", ["0.5", "0.5"]⟩
  , ⟨"plt.colorbar", []⟩
  -- cross validation cell
  , ⟨"DecisionTreeClassifier", ["max_depth=12", "criterion=entropy"]⟩
  , ⟨"cross_validate", ["rf", "X", "y", "cv=5", "scoring=scoring",
                        "return_train_score=True"]⟩
  -- cross validation results cell
  , ⟨"auc.mean", []⟩, ⟨"auc.std", []⟩, ⟨"print", []⟩
  , ⟨"acc.mean", []⟩, ⟨"acc.std", []⟩, ⟨"print", []⟩
  , ⟨"recall.mean", []⟩, ⟨"recall.std", []⟩, ⟨"print", []⟩ ]

/-- Calls of `smd_boosting.ipynb`, part 5 (AdaBoost and its evaluation). -/
def boostingCallsE : List PyCall :=
  -- AdaBoost cell
  [ ⟨"DecisionTreeClassifier", ["max_depth=2"]⟩
  , ⟨"AdaBoostClassifier",
     ["base_estimator=DecisionTreeClassifier(max_depth=2)",
      "n_estimators=100", "learning_rate=0.5"]⟩
  , ⟨"ada.fit", ["X_train", "y_train"]⟩
  , ⟨"ada.predict", ["X_test"]⟩
  , ⟨"ada.predict_proba", ["X_test"]⟩
  -- staged score cell
  , ⟨"ada.staged_score", ["X_test", "y_test"]⟩
  , ⟨"list", ["ada.staged_score(X_test, y_test)"]⟩
  , ⟨"np.array", []⟩
  , ⟨"plt.figure", []⟩
  , ⟨"plt.plot", ["scores", "."]⟩
  , ⟨"plt.ylabel", ["Accuracy"]⟩
  , ⟨"plt.xlabel", ["Iteration"]⟩
  -- AdaBoost metrics cell
  , ⟨"accuracy_score", ["y_test", "y_prediction"]⟩
  , ⟨"roc_auc_score", ["y_test", "y_prediction_proba[:, 1]"]⟩
  , ⟨"roc_curve", ["y_test", "y_prediction_proba[:, 1]"]⟩
  , ⟨"plt.figure", []⟩
  , ⟨"plt.scatter", ["fpr", "tpr", "c=thresholds"]⟩
  , ⟨"plt.plot", ["fpr", "tpr", "--", "color=gray", "alpha=0.5"]⟩
  , ⟨"plt.text", ["0.5", "0.5"]⟩ ]

/-- Calls of `smd_boosting.ipynb`, part 6 (gradient boosting and its
evaluation). -/
def boostingCallsF : List PyCall :=
  -- gradient boosting cell
  [ ⟨"GradientBoostingClassifier", ["verbose=True", "n_estimators=300"]⟩
  , ⟨"grb.fit", ["X_train", "y_train"]⟩
  , ⟨"grb.predict", ["X_test"]⟩
  , ⟨"grb.predict_proba", ["X_test"]⟩
  -- staged predict cell
  , ⟨"accuracy_score", ["y_pred", "y_test"]⟩
  , ⟨"grb.staged_predict", ["X_test"]⟩
  , ⟨"plt.figure", []⟩
  , ⟨"range", ["len(l)"]⟩
  , ⟨"len", ["l"]⟩
  , ⟨"plt.plot", ["range(len(l))", "l", "."]⟩
  , ⟨"plt.ylabel", ["Accuracy"]⟩
  , ⟨"plt.xlabel", ["Iteration"]⟩
  -- gradient boosting metrics cell
  , ⟨"accuracy_score", ["y_test", "y_prediction"]⟩
  , ⟨"roc_auc_score", ["y_test", "y_prediction_proba[:, 1]"]⟩
  , ⟨"roc_curve", ["y_test", "y_prediction_proba[:, 1]"]⟩
  , ⟨"plt.figure", []⟩
  , ⟨"plt.scatter", ["fpr", "tpr", "c=thresholds"]⟩
  , ⟨"plt.plot", ["fpr", "tpr", "--", "color=gray", "alpha=0.5"]⟩
  , ⟨"plt.text", ["0.5", "0.5"]⟩ ]

/-- Calls of `smd_boosting.ipynb`, part 7 (random forest and its
evaluation). -/
def boostingCallsG : List PyCall :=
  -- random forest cell
  [ ⟨"RandomForestClassifier",
     ["n_estimators=150", "max_depth=18", "criterion=entropy"]⟩
  , ⟨"rf.fit", ["X_train", "y_train"]⟩
  , ⟨"rf.predict", ["X_test"]⟩
  , ⟨"rf.predict_proba", ["X_test"]⟩
  -- random forest metrics cell
  , ⟨"accuracy_score", ["y_test", "y_prediction"]⟩
  , ⟨"roc_auc_score", ["y_test", "y_prediction_proba[:, 1]"]⟩
  , ⟨"roc_curve", ["y_test", "y_prediction_proba[:, 1]"]⟩
  , ⟨"plt.figure", []⟩
  , ⟨"plt.scatter", ["fpr", "tpr", "c=thresholds"]⟩
  , ⟨"plt.plot", ["fpr", "tpr", "--", "color=gray", "alpha=0.5"]⟩
  , ⟨"plt.text", ["0.5", "0.5"]⟩ ]

/-- Every call made by code of `smd_boosting.ipynb` (top-level cells and
the bodies of notebook-defined functions), in source order. -/
def boostingCalls : List PyCall :=
  boostingCallsA ++ read_events_def.bodyCalls
    ++ boostingCallsB ++ preprocess_def.bodyCalls
    ++ boostingCallsC0 ++ feature_generation_def.bodyCalls
    ++ boostingCallsC ++ boostingCallsD ++ boostingCallsE
    ++ boostingCallsF ++ boostingCallsG

/-! ## Transcription of `smd_neural_networks_torch.ipynb` -/

/-- `__init__` of the first (MNIST 8x8 toy) `FullyConnected` class. -/
def fullyConnected1_init_def : PyDef :=
  { name := "FullyConnected.__init__"
    params := ["self"]
    body :=
      [ ⟨StmtKind.exprStmt, 0, [⟨"super", []⟩, ⟨"super().__init__", []⟩]⟩
      , ⟨StmtKind.assign, 0,
          [ ⟨"nn.Sequential", []⟩
          , ⟨"nn.Linear", ["8 * 8 * 1", "128"]⟩, ⟨"nn.ReLU", []⟩
          , ⟨"nn.Linear", ["128", "128"]⟩, ⟨"nn.ReLU", []⟩
          , ⟨"nn.Linear", ["128", "10"]⟩, ⟨"nn.Softmax", ["dim=1"]⟩ ]⟩
      , ⟨StmtKind.assign, 0, [⟨"nn.Flatten", []⟩]⟩ ] }

/-- `forward` of the first `FullyConnected` class. -/
def fullyConnected1_forward_def : PyDef :=
  { name := "FullyConnected.forward"
    params := ["self", "x"]
    body :=
      [ ⟨StmtKind.assign, 0, [⟨"self.flatten", ["x"]⟩]⟩
      , ⟨StmtKind.assign, 0, [⟨"self.fc", ["x"]⟩]⟩
      , ⟨StmtKind.ret, 0, []⟩ ] }

/-- `__init__` of the second (parameterised) `FullyConnected` class. -/
def fullyConnected2_init_def : PyDef :=
  { name := "FullyConnected.__init__"
    params := ["self", "input_size", "n_classes", "dropout", "n_hidden"]
    body :=
      [ ⟨StmtKind.exprStmt, 0, [⟨"super", []⟩, ⟨"super().__init__", []⟩]⟩
      , ⟨StmtKind.assign, 0, [⟨"nn.Flatten", []⟩]⟩
      , ⟨StmtKind.assign, 0,
          [ ⟨"nn.Sequential", []⟩
          , ⟨"nn.BatchNorm1d", ["input_size"]⟩
          , ⟨"nn.Linear", ["input_size", "n_hidden"]⟩
          , ⟨"nn.BatchNorm1d", ["n_hidden"]⟩
          , ⟨"nn.Dropout", ["dropout"]⟩, ⟨"nn.LeakyReLU", []⟩
          , ⟨"nn.Linear", ["n_hidden", "n_hidden"]⟩
          , ⟨"nn.BatchNorm1d", ["n_hidden"]⟩
          , ⟨"nn.Dropout", ["dropout"]⟩, ⟨"nn.LeakyReLU", []⟩
          , ⟨"nn.Linear", ["n_hidden", "n_classes"]⟩
          , ⟨"nn.Softmax", ["dim=1"]⟩ ]⟩ ] }

/-- `forward` of the second `FullyConnected` class. -/
def fullyConnected2_forward_def : PyDef :=
  { name := "FullyConnected.forward"
    params := ["self", "x"]
    body :=
      [ ⟨StmtKind.assign, 0, [⟨"self.flatten", ["x"]⟩]⟩
      , ⟨StmtKind.assign, 0, [⟨"self.fc_stack", ["x"]⟩]⟩
      , ⟨StmtKind.ret, 0, []⟩ ] }

/-- `train` as defined in `smd_neural_networks_torch.ipynb`. -/
def train_def : PyDef :=
  { name := "train"
    params := ["dataloader", "model", "loss_fn", "optimizer", "device"]
    body :=
      [ ⟨StmtKind.assign, 0, [⟨"model.to", ["device"]⟩]⟩
      , ⟨StmtKind.exprStmt, 0, [⟨"model.train", []⟩]⟩
      , ⟨StmtKind.assign, 0, []⟩                       -- losses = []
      , ⟨StmtKind.forLoop, 0, []⟩                      -- for X, y in dataloader
      , ⟨StmtKind.assign, 1, [⟨"X.to", ["device"]⟩, ⟨"y.to", ["device"]⟩]⟩
      , ⟨StmtKind.assign, 1, [⟨"model", ["X"]⟩]⟩
      , ⟨StmtKind.assign, 1, [⟨"loss_fn", ["pred", "y"]⟩]⟩
      , ⟨StmtKind.exprStmt, 1, [⟨"optimizer.zero_grad", []⟩]⟩
      , ⟨StmtKind.exprStmt, 1, [⟨"loss.backward", []⟩]⟩
      , ⟨StmtKind.exprStmt, 1, [⟨"optimizer.step", []⟩]⟩
      , ⟨StmtKind.exprStmt, 1, [⟨"losses.append", ["loss.item()"]⟩, ⟨"loss.item", []⟩]⟩
      , ⟨StmtKind.ret, 0, []⟩ ] }

/-- `test` as defined in `smd_neural_networks_torch.ipynb`. -/
def test_def : PyDef :=
  { name := "test"
    params := ["dataloader", "model", "loss_fn", "device"]
    body :=
      [ ⟨StmtKind.assign, 0, [⟨"model.to", ["device"]⟩]⟩
      , ⟨StmtKind.assign, 0, []⟩                       -- test_losses = []
      , ⟨StmtKind.withBlock, 0, [⟨"torch.no_grad", []⟩]⟩
      , ⟨StmtKind.exprStmt, 1, [⟨"model.eval", []⟩]⟩
      , ⟨StmtKind.forLoop, 1, []⟩
      , ⟨StmtKind.assign, 2, [⟨"X.to", ["device"]⟩, ⟨"y.to", ["device"]⟩]⟩
      , ⟨StmtKind.assign, 2, [⟨"model", ["X"]⟩]⟩
      , ⟨StmtKind.exprStmt, 2,
          [⟨"test_losses.append", []⟩, ⟨"loss_fn", ["pred", "y"]⟩, ⟨"item", []⟩]⟩
      , ⟨StmtKind.ret, 0, []⟩ ] }

/-- `fit_one_epoch` as defined in `smd_neural_networks_torch.ipynb`. -/
def fit_one_epoch_def : PyDef :=
  { name := "fit_one_epoch"
    params := ["train_dataloader", "test_dataloader", "model", "loss_fn",
               "optimizer", "device"]
    body :=
      [ ⟨StmtKind.assign, 0,
          [⟨"train", ["train_dataloader", "model", "loss_fn", "optimizer", "device"]⟩]⟩
      , ⟨StmtKind.assign, 0,
          [⟨"test", ["test_dataloader", "model", "loss_fn", "device"]⟩]⟩
      , ⟨StmtKind.ret, 0, []⟩ ] }

/-- `accuracy` as defined in `smd_neural_networks_torch.ipynb`. -/
def accuracy_def : PyDef :=
  { name := "accuracy"
    params := ["dataloader", "model", "device"]
    body :=
      [ ⟨StmtKind.assign, 0, []⟩                       -- correct = 0
      , ⟨StmtKind.assign, 0, []⟩                       -- total = 0
      , ⟨StmtKind.assign, 0, [⟨"model.to", ["device"]⟩]⟩
      , ⟨StmtKind.withBlock, 0, [⟨"torch.no_grad", []⟩]⟩
      , ⟨StmtKind.exprStmt, 1, [⟨"model.eval", []⟩]⟩
      , ⟨StmtKind.forLoop, 1, []⟩
      , ⟨StmtKind.assign, 2, [⟨"X.to", ["device"]⟩, ⟨"y.to", ["device"]⟩]⟩
      , ⟨StmtKind.assign, 2, [⟨"model", ["X"]⟩]⟩
      , ⟨StmtKind.assign, 2, [⟨"len", ["y"]⟩]⟩         -- total += len(y)
      , ⟨StmtKind.assign, 2,                           -- correct += ...
          [⟨"pred.argmax", ["1"]⟩, ⟨"type", ["torch.float"]⟩,
           ⟨"sum", []⟩, ⟨"item", []⟩]⟩
      , ⟨StmtKind.ret, 0, []⟩ ] }                      -- return correct / total

/-- `predictions` as defined in `smd_neural_networks_torch.ipynb`. -/
def predictions_def : PyDef :=
  { name := "predictions"
    params := ["dataloader", "model", "device"]
    body :=
      [ ⟨StmtKind.assign, 0, []⟩                       -- predictions = []
      , ⟨StmtKind.assign, 0, []⟩                       -- truth = []
      , ⟨StmtKind.assign, 0, [⟨"model.to", ["device"]⟩]⟩
      , ⟨StmtKind.withBlock, 0, [⟨"torch.no_grad", []⟩]⟩
      , ⟨StmtKind.exprStmt, 1, [⟨"model.eval", []⟩]⟩
      , ⟨StmtKind.forLoop, 1, []⟩
      , ⟨StmtKind.assign, 2, [⟨"X.to", ["device"]⟩, ⟨"y.to", ["device"]⟩]⟩
      , ⟨StmtKind.exprStmt, 2,
          [⟨"predictions.append", []⟩, ⟨"model", ["X"]⟩, ⟨"argmax", ["1"]⟩]⟩
      , ⟨StmtKind.exprStmt, 2, [⟨"truth.append", ["y"]⟩]⟩
      , ⟨StmtKind.ret, 0,
          [⟨"torch.cat", ["predictions"]⟩, ⟨"torch.cat", ["truth"]⟩]⟩ ] }

/-- `report_accuracy` as defined in `smd_neural_networks_torch.ipynb`. -/
def report_accuracy_def : PyDef :=
  { name := "report_accuracy"
    params := ["test_dataloader", "train_dataloader", "model"]
    body :=
      [ ⟨StmtKind.assign, 0, [⟨"accuracy", ["test_dataloader", "model"]⟩]⟩
      , ⟨StmtKind.assign, 0, [⟨"accuracy", ["train_dataloader", "model"]⟩]⟩
      , ⟨StmtKind.exprStmt, 0, [⟨"print", []⟩]⟩ ] }

/-- `plot_losses` as defined in `smd_neural_networks_torch.ipynb`. -/
def plot_losses_def : PyDef :=
  { name := "plot_losses"
    params := ["train_losses", "test_losses"]
    body :=
      [ ⟨StmtKind.exprStmt, 0, [⟨"plt.figure", []⟩]⟩
      , ⟨StmtKind.forLoop, 0, [⟨"enumerate", []⟩, ⟨"zip", []⟩]⟩
      , ⟨StmtKind.assign, 1, [⟨"np.array", ["losses"]⟩]⟩
      , ⟨StmtKind.assign, 1,
          [⟨"np.linspace", ["0", "len(losses)", "losses.size"]⟩, ⟨"len", ["losses"]⟩]⟩
      , ⟨StmtKind.exprStmt, 1, [⟨"plt.plot", []⟩, ⟨"losses.ravel", []⟩]⟩
      , ⟨StmtKind.assign, 1, [⟨"losses.mean", ["axis=1"]⟩]⟩
      , ⟨StmtKind.assign, 1,
          [⟨"np.arange", ["0.5", "len(mean_loss)"]⟩, ⟨"len", ["mean_loss"]⟩]⟩
      , ⟨StmtKind.exprStmt, 1, [⟨"plt.plot", []⟩]⟩
      , ⟨StmtKind.exprStmt, 0, [⟨"plt.xlabel", ["Epoch"]⟩]⟩
      , ⟨StmtKind.exprStmt, 0, [⟨"plt.legend", []⟩]⟩ ] }

/-- `__init__` of `ConvolutionalNetwork` (VGG-style CNN for CIFAR-10). -/
def convolutionalNetwork_init_def : PyDef :=
  { name := "ConvolutionalNetwork.__init__"
    params := ["self"]
    body :=
      [ ⟨StmtKind.exprStmt, 0, [⟨"super", []⟩, ⟨"super().__init__", []⟩]⟩
      , ⟨StmtKind.assign, 0,
          [ ⟨"nn.Sequential", []⟩
          , ⟨"nn.Conv2d", ["3", "32", "kernel_size=(3, 3)", "padding=same"]⟩
          , ⟨"nn.Conv2d", ["32", "32", "kernel_size=(3, 3)", "padding=same"]⟩
          , ⟨"nn.BatchNorm2d", ["32"]⟩, ⟨"nn.LeakyReLU", []⟩
          , ⟨"nn.MaxPool2d", ["kernel_size=2", "stride=2"]⟩
          , ⟨"nn.Dropout", ["0.25"]⟩
          , ⟨"nn.Conv2d", ["32", "64", "kernel_size=(3, 3)", "padding=same"]⟩
          , ⟨"nn.Conv2d", ["64", "64", "kernel_size=(3, 3)", "padding=same"]⟩
          , ⟨"nn.BatchNorm2d", ["64"]⟩, ⟨"nn.LeakyReLU", []⟩
          , ⟨"nn.MaxPool2d", ["kernel_size=2", "stride=2"]⟩
          , ⟨"nn.Dropout", ["0.25"]⟩
          , ⟨"nn.Conv2d", ["64", "128", "kernel_size=(3, 3)", "padding=same"]⟩
          , ⟨"nn.Conv2d", ["128", "128", "kernel_size=(3, 3)", "padding=same"]⟩
          , ⟨"nn.BatchNorm2d", ["128"]⟩, ⟨"nn.LeakyReLU", []⟩
          , ⟨"nn.MaxPool2d", ["kernel_size=2", "stride=2"]⟩
          , ⟨"nn.Dropout", ["0.25"]⟩ ]⟩
      , ⟨StmtKind.assign, 0, [⟨"nn.Flatten", []⟩]⟩
      , ⟨StmtKind.assign, 0,
          [ ⟨"nn.Sequential", []⟩
          , ⟨"nn.Linear", ["128 * 4 * 4", "128"]⟩
          , ⟨"nn.Dropout", ["0.25"]⟩, ⟨"nn.LeakyReLU", []⟩
          , ⟨"nn.Linear", ["128", "10"]⟩, ⟨"nn.Softmax", ["dim=1"]⟩ ]⟩ ] }

/-- `forward` of `ConvolutionalNetwork`. -/
def convolutionalNetwork_forward_def : PyDef :=
  { name := "ConvolutionalNetwork.forward"
    params := ["self", "x"]
    body :=
      [ ⟨StmtKind.assign, 0, [⟨"self.conv_stack", ["x"]⟩]⟩
      , ⟨StmtKind.assign, 0, [⟨"self.flatten", ["x"]⟩]⟩
      , ⟨StmtKind.assign, 0, [⟨"self.linear_relu_stack", ["x"]⟩]⟩
      , ⟨StmtKind.ret, 0, []⟩ ] }

/-- The function and method definitions of `smd_neural_networks_torch.ipynb`. -/
def torchDefs : List PyDef :=
  [ fullyConnected1_init_def, fullyConnected1_forward_def
  , fullyConnected2_init_def, fullyConnected2_forward_def
  , train_def, test_def, fit_one_epoch_def
  , accuracy_def, predictions_def, report_accuracy_def
  , plot_losses_def
  , convolutionalNetwork_init_def, convolutionalNetwork_forward_def ]

/-- Names of the classes defined by `smd_neural_networks_torch.ipynb`
(`FullyConnected` is defined twice). -/
def torchClasses : List String :=
  ["FullyConnected", "FullyConnected", "ConvolutionalNetwork"]

/-- Calls of `smd_neural_networks_torch.ipynb`, part 1 (javascript cell,
class instantiations, device cell). -/
def torchCallsA : List PyCall :=
  [ ⟨"$.getScript",
     ["https://kmahelona.github.io/ipython_notebook_goodies/ipython_notebook_toc.js"]⟩ ]

/-- Calls of `smd_neural_networks_torch.ipynb`, part 2a (instantiation of
the first `FullyConnected`). -/
def torchCallsB1 : List PyCall :=
  [ ⟨"FullyConnected", []⟩ ]

/-- Calls of `smd_neural_networks_torch.ipynb`, part 2b (instantiation of
the second `FullyConnected`, device detection). -/
def torchCallsB2 : List PyCall :=
  [ ⟨"FullyConnected", ["input_size=3 * 50 * 50", "n_classes=2"]⟩
  , ⟨"torch.cuda.is_available", []⟩
  , ⟨"format", ["DEVICE"]⟩                 -- "Using ... device".format(DEVICE)
  , ⟨"print", []⟩ ]

/-- Calls of `smd_neural_networks_torch.ipynb`, part 3 (MNIST loading and
first batch inspection). -/
def torchCallsC : List PyCall :=
  [ ⟨"datasets.MNIST",
     ["root=data", "train=True",
      "transform=Compose([Resize((16, 16)), ToTensor()])", "download=True"]⟩
  , ⟨"Compose", ["[Resize((16, 16)), ToTensor()]"]⟩
  , ⟨"Resize", ["(16, 16)"]⟩, ⟨"ToTensor", []⟩
  , ⟨"datasets.MNIST",
     ["root=data", "train=False",
      "transform=Compose([Resize((16, 16)), ToTensor()])", "download=True"]⟩
  , ⟨"Compose", ["[Resize((16, 16)), ToTensor()]"]⟩
  , ⟨"Resize", ["(16, 16)"]⟩, ⟨"ToTensor", []⟩
  , ⟨"DataLoader", ["mnist_train", "batch_size=batch_size", "shuffle=True"]⟩
  , ⟨"DataLoader", ["mnist_test", "batch_size=batch_size", "shuffle=True"]⟩
  , ⟨"next", ["iter(test_dataloader)"]⟩
  , ⟨"iter", ["test_dataloader"]⟩
  , ⟨"print", ["Shape of X:", "X.shape"]⟩
  , ⟨"print", ["Shape of y:", "y.shape"]⟩
  , ⟨"plt.subplots", ["2", "5", "figsize=(9, 3)", "constrained_layout=True"]⟩
  , ⟨"enumerate", ["axs.flat"]⟩
  , ⟨"ax.imshow", ["X[i, 0]", "cmap=gray"]⟩ ]

/-- Calls of `smd_neural_networks_torch.ipynb`, part 4 (MNIST training
with the fully connected model). -/
def torchCallsD : List PyCall :=
  [ ⟨"FullyConnected",
     ["input_size=X[0].shape.numel()", "n_classes=len(mnist_train.classes)",
      "n_hidden=256", "dropout=0.25"]⟩
  , ⟨"numel", []⟩, ⟨"len", ["mnist_train.classes"]⟩
  , ⟨"nn.CrossEntropyLoss", []⟩
  , ⟨"torch.optim.AdamW", ["model.parameters()"]⟩
  , ⟨"model.parameters", []⟩
  , ⟨"report_accuracy", ["test_dataloader", "train_dataloader", "model"]⟩
  , ⟨"tqdm", ["range(epochs)"]⟩, ⟨"range", ["epochs"]⟩
  , ⟨"fit_one_epoch",
     ["train_dataloader", "test_dataloader", "model", "loss_fn", "optimizer"]⟩
  , ⟨"train_losses.append", ["epoch_loss_train"]⟩
  , ⟨"test_losses.append", ["epoch_loss_test"]⟩
  , ⟨"report_accuracy", ["test_dataloader", "train_dataloader", "model"]⟩
  , ⟨"print", ["Done!"]⟩ ]

/-- Calls of `smd_neural_networks_torch.ipynb`, part 5 (loss plot, CIFAR-10
loading and first batch inspection). -/
def torchCallsE : List PyCall :=
  [ ⟨"plot_losses", ["train_losses", "test_losses"]⟩
  , ⟨"plt.yscale", ["log"]⟩
  , ⟨"datasets.CIFAR10",
     ["root=data", "train=True", "transform=ToTensor()", "download=True"]⟩
  , ⟨"ToTensor", []⟩
  , ⟨"datasets.CIFAR10",
     ["root=data", "train=False", "transform=ToTensor()", "download=True"]⟩
  , ⟨"ToTensor", []⟩
  , ⟨"DataLoader", ["cifar10_train", "batch_size=batch_size"]⟩
  , ⟨"DataLoader", ["cifar10_test", "batch_size=batch_size"]⟩
  , ⟨"next", ["iter(test_dataloader)"]⟩
  , ⟨"iter", ["test_dataloader"]⟩
  , ⟨"print", ["Shape of X:", "X.shape"]⟩
  , ⟨"print", ["Shape of y:", "y.shape"]⟩
  , ⟨"plt.subplots", ["4", "4", "figsize=(9, 9)", "constrained_layout=True"]⟩
  , ⟨"enumerate", ["axs.flat"]⟩
  , ⟨"np.swapaxes", ["X[idx + 16]", "1", "2"]⟩
  , ⟨"ax.set_title", ["cifar10_train.classes[y[idx + 16]]"]⟩
  , ⟨"ax.imshow", ["img"]⟩
  , ⟨"ax.set_axis_off", []⟩ ]

/-- Calls of `smd_neural_networks_torch.ipynb`, part 6 (CIFAR-10 training
with the fully connected model). -/
def torchCallsF : List PyCall :=
  [ ⟨"FullyConnected",
     ["input_size=X[0].shape.numel()", "n_classes=len(cifar10_train.classes)"]⟩
  , ⟨"numel", []⟩, ⟨"len", ["cifar10_train.classes"]⟩
  , ⟨"nn.CrossEntropyLoss", []⟩
  , ⟨"torch.optim.Adam", ["model.parameters()", "lr=1e-3"]⟩
  , ⟨"model.parameters", []⟩
  , ⟨"report_accuracy", ["test_dataloader", "train_dataloader", "model"]⟩
  , ⟨"tqdm", ["range(epochs)"]⟩, ⟨"range", ["epochs"]⟩
  , ⟨"fit_one_epoch",
     ["train_dataloader", "test_dataloader", "model", "loss_fn", "optimizer"]⟩
  , ⟨"train_losses.append", ["epoch_loss_train"]⟩
  , ⟨"test_losses.append", ["epoch_loss_test"]⟩
  , ⟨"report_accuracy", ["test_dataloader", "train_dataloader", "model"]⟩
  , ⟨"print", ["Done!"]⟩
  , ⟨"plot_losses", ["train_losses", "test_losses"]⟩
  , ⟨"plt.yscale", ["log"]⟩ ]

/-- Calls of `smd_neural_networks_torch.ipynb`, part 7 (convolutional
network training and confusion matrix). -/
def torchCallsG : List PyCall :=
  [ ⟨"ConvolutionalNetwork", []⟩
  , ⟨"nn.CrossEntropyLoss", []⟩
  , ⟨"torch.optim.AdamW", ["model.parameters()"]⟩
  , ⟨"model.parameters", []⟩
  , ⟨"report_accuracy", ["test_dataloader", "train_dataloader", "model"]⟩
  , ⟨"tqdm", ["range(epochs)"]⟩, ⟨"range", ["epochs"]⟩
  , ⟨"fit_one_epoch",
     ["train_dataloader", "test_dataloader", "model", "loss_fn", "optimizer"]⟩
  , ⟨"train_losses.append", ["epoch_loss_train"]⟩
  , ⟨"test_losses.append", ["epoch_loss_test"]⟩
  , ⟨"report_accuracy", ["test_dataloader", "train_dataloader", "model"]⟩
  , ⟨"print", ["Done!"]⟩
  , ⟨"plot_losses", ["train_losses=train_losses", "test_losses=test_losses"]⟩
  , ⟨"predictions", ["test_dataloader", "model"]⟩
  , ⟨"confusion_matrix", ["y.cpu().numpy()", "prediction.cpu().numpy()"]⟩
  , ⟨"y.cpu", []⟩, ⟨"numpy", []⟩
  , ⟨"prediction.cpu", []⟩, ⟨"numpy", []⟩
  , ⟨"np.divide", ["matrix", "matrix.sum(axis = 1)"]⟩
  , ⟨"matrix.sum", ["axis = 1"]⟩
  , ⟨"plt.matshow", ["matrix"]⟩
  , ⟨"plt.xticks", ["np.arange(len(classes))", "classes"]⟩
  , ⟨"np.arange", ["len(classes)"]⟩, ⟨"len", ["classes"]⟩
  , ⟨"plt.yticks", ["np.arange(len(classes))", "classes"]⟩
  , ⟨"np.arange", ["len(classes)"]⟩, ⟨"len", ["classes"]⟩
  , ⟨"plt.colorbar", []⟩ ]

/-- Every call made by code of `smd_neural_networks_torch.ipynb`
(top-level cells and the bodies of notebook-defined functions and methods),
in source order. -/
def torchCalls : List PyCall :=
  torchCallsA
    ++ fullyConnected1_init_def.bodyCalls ++ fullyConnected1_forward_def.bodyCalls
    ++ torchCallsB1
    ++ fullyConnected2_init_def.bodyCalls ++ fullyConnected2_forward_def.bodyCalls
    ++ torchCallsB2
    ++ train_def.bodyCalls ++ test_def.bodyCalls ++ fit_one_epoch_def.bodyCalls
    ++ accuracy_def.bodyCalls ++ predictions_def.bodyCalls
    ++ report_accuracy_def.bodyCalls
    ++ torchCallsC ++ torchCallsD
    ++ plot_losses_def.bodyCalls
    ++ torchCallsE ++ torchCallsF
    ++ convolutionalNetwork_init_def.bodyCalls
    ++ convolutionalNetwork_forward_def.bodyCalls
    ++ torchCallsG

/-- Every call of notebook code in the repository. -/
def allCalls : List PyCall := boostingCalls ++ torchCalls

/-! ## Classification of calls -/

/-- Does the call fetch an external resource?  In the notebooks these are:
`$.getScript` (loads a script over HTTPS), `get_dataset_path` (locates a
CTA simulation data file, downloading it into a cache when absent), and
the `torchvision` dataset constructors when passed `download=True`.  All
other callees (numpy, pandas, matplotlib, scikit-learn, torch tensor ops,
notebook-defined functions) compute locally. -/
def fetchesExternalResource (c : PyCall) : Bool :=
  c.callee == "$.getScript" || c.callee == "get_dataset_path" ||
    ((c.callee == "datasets.MNIST" || c.callee == "datasets.CIFAR10") &&
      c.args.contains "download=True")

/-- Access to a pre-existing CTA simulation data file via the dataset
loader utility. -/
def isSimulationDataAccess (c : PyCall) : Bool :=
  c.callee == "get_dataset_path"

/-- Download of one of the standard public image datasets. -/
def isImageDatasetDownload (c : PyCall) : Bool :=
  (c.callee == "datasets.MNIST" || c.callee == "datasets.CIFAR10") &&
    c.args.contains "download=True"

/-- The table-of-contents helper script each notebook loads in its first
cell. -/
def isTocScriptFetch (c : PyCall) : Bool :=
  c.callee == "$.getScript" &&
    c.args ==
      ["https://kmahelona.github.io/ipython_notebook_goodies/ipython_notebook_toc.js"]

/-- Python callees that spawn a thread or an operating-system process. -/
def spawnCallees : List String :=
  [ "threading.Thread", "multiprocessing.Process", "multiprocessing.Pool"
  , "subprocess.run", "subprocess.Popen", "subprocess.call", "os.fork"
  , "os.system", "os.spawnl", "concurrent.futures.ThreadPoolExecutor"
  , "concurrent.futures.ProcessPoolExecutor" ]

/-- Does the call spawn a thread or a process? -/
def spawnsThreadOrProcess (c : PyCall) : Bool :=
  spawnCallees.contains c.callee

/-- A `DataLoader` constructed with a `num_workers` argument would spawn
worker processes; without it the default `num_workers=0` loads data in the
calling process. -/
def dataLoaderWithWorkers (c : PyCall) : Bool :=
  c.callee == "DataLoader" &&
    c.args.any (fun a => strStartsWith "num_workers" a)

/-! ## Semantic layer: dataframes and `preprocess`

Python floats are modelled as `ℚ`; a missing entry (`NaN`) is a distinct
cell value, as in pandas. -/

/-- An entry of a dataframe column. -/
inductive Cell
  | nan
  | num (q : ℚ)
  | strv (s : String)
deriving DecidableEq, Repr

/-- A pandas dtype, coarsely: numeric or not. -/
inductive Dtype
  | numeric
  | object
deriving DecidableEq, Repr

/-- A dataframe column. -/
structure Col where
  name : String
  dtype : Dtype
  values : List Cell
deriving DecidableEq, Repr

/-- A dataframe, column-oriented. -/
abbrev DataFrame := List Col

/-- The alternatives of the notebook's pattern
`forbidden_columns = true_|obs_id|event_id`. -/
def forbidden_columns : List String := ["true_", "obs_id", "event_id"]

/-- A column name matches the forbidden pattern (as Python `re.match`, i.e.
anchored at the start: one of the alternatives is a prefix of the name). -/
def matchesForbidden (s : String) : Bool :=
  forbidden_columns.any fun p => strStartsWith p s

/-- `df.filter(regex=f'^(?!true_|obs_id|event_id).*$')`: keeps exactly the
columns whose name does not start with any forbidden alternative (the
negative lookahead at `^` fails exactly on such prefixes). -/
def filterForbidden (df : DataFrame) : DataFrame :=
  df.filter fun c => !matchesForbidden c.name

/-- Dropping `df.select_dtypes(exclude=['number']).columns`. -/
def dropNonNumeric (df : DataFrame) : DataFrame :=
  df.filter fun c => c.dtype == Dtype.numeric

/-- pandas `count` of a column: its number of non-NaN entries. -/
def colCount (c : Col) : Nat :=
  (c.values.filter fun v => v != Cell.nan).length

/-- Dropping `df.columns[df.count() == 0]` (columns where all rows are
NaN). -/
def dropEmptyCols (df : DataFrame) : DataFrame :=
  df.filter fun c => colCount c != 0

/-- The non-NaN numeric entries of a column. -/
def numericVals (c : Col) : List ℚ :=
  c.values.filterMap fun v =>
    match v with
    | Cell.num q => some q
    | _ => none

/-- Mean of a list of rationals. -/
def listMean (xs : List ℚ) : ℚ := xs.sum / (xs.length : ℚ)

/-- Sample variance with one delta degree of freedom, as pandas `std`
squares it. -/
def sampleVariance (xs : List ℚ) : ℚ :=
  ((xs.map fun x => (x - listMean xs) ^ 2).sum) / ((xs.length : ℚ) - 1)

/-- The test `describe().loc['std'] == 0`.  pandas computes the sample
standard deviation over the non-NaN entries and reports NaN (which
compares unequal to 0) when fewer than two entries remain; the standard
deviation is 0 exactly when the sample variance is 0. -/
def stdIsZero (c : Col) : Bool :=
  decide (2 ≤ (numericVals c).length) && decide (sampleVariance (numericVals c) = 0)

/-- Dropping `desc.columns[desc.loc['std'] == 0]` (constant columns). -/
def dropConstantCols (df : DataFrame) : DataFrame :=
  df.filter fun c => !stdIsZero c

/-- Number of rows of a dataframe (pandas columns all share one length; we
take the maximum so the definition is total). -/
def nrows (df : DataFrame) : Nat :=
  (df.map fun c => c.values.length).foldr max 0

/-- Row `i` has no NaN in any column of `df`. -/
def rowComplete (df : DataFrame) (i : Nat) : Bool :=
  df.all fun c =>
    match c.values[i]? with
    | some v => v != Cell.nan
    | none => true

/-- `df.dropna()`: keep exactly the rows with no missing entry. -/
def dropna (df : DataFrame) : DataFrame :=
  df.map fun c =>
    { c with
      values :=
        ((List.range (nrows df)).filter (rowComplete df)).filterMap
          fun i => c.values[i]? }

/-- `preprocess` from `smd_boosting.ipynb`: filter out forbidden columns,
drop non-numeric columns, drop all-NaN columns, drop constant columns,
then drop rows with missing entries — in the order of the source. -/
def preprocess (df : DataFrame) : DataFrame :=
  dropna (dropConstantCols (dropEmptyCols (dropNonNumeric (filterForbidden df))))

/-! ## Data transformations and `feature_generation` -/

/-- Row-wise arithmetic over named columns, as written in
`feature_generation` (`**2` is squaring, `np.sqrt` the library's
elementwise square root). -/
inductive ColExpr
  | col (name : String)
  | add (a b : ColExpr)
  | sub (a b : ColExpr)
  | mul (a b : ColExpr)
  | div (a b : ColExpr)
  | sq (a : ColExpr)
  | sqrtE (a : ColExpr)
deriving DecidableEq, Repr

/-- Evaluate a column expression on one row (a valuation of column names),
with the library's `np.sqrt` passed as a parameter. -/
def evalColExpr (sqrtF : ℚ → ℚ) (row : String → ℚ) : ColExpr → ℚ
  | ColExpr.col n => row n
  | ColExpr.add a b => evalColExpr sqrtF row a + evalColExpr sqrtF row b
  | ColExpr.sub a b => evalColExpr sqrtF row a - evalColExpr sqrtF row b
  | ColExpr.mul a b => evalColExpr sqrtF row a * evalColExpr sqrtF row b
  | ColExpr.div a b => evalColExpr sqrtF row a / evalColExpr sqrtF row b
  | ColExpr.sq a => evalColExpr sqrtF row a ^ 2
  | ColExpr.sqrtE a => sqrtF (evalColExpr sqrtF row a)

/-- A transformation applied to the data by notebook code: either a single
library call, or a repository-defined row-wise expression assigned to a
new column. -/
inductive Transform
  | libraryCall (callee : String)
  | repoExpr (target : String) (e : ColExpr)
deriving DecidableEq, Repr

/-- `df['awesome_feature'] = df['hillas_intensity'] * (df['hillas_width'] /
df['hillas_length'])`. -/
def awesome_feature_expr : ColExpr :=
  ColExpr.mul (ColExpr.col "hillas_intensity")
    (ColExpr.div (ColExpr.col "hillas_width") (ColExpr.col "hillas_length"))

/-- `df['impact'] = np.sqrt((df['HillasReconstructor_core_x'] -
df['pos_x'])**2 + (df['HillasReconstructor_core_y'] - df['pos_y'])**2)`. -/
def impact_expr : ColExpr :=
  ColExpr.sqrtE
    (ColExpr.add
      (ColExpr.sq (ColExpr.sub (ColExpr.col "HillasReconstructor_core_x")
        (ColExpr.col "pos_x")))
      (ColExpr.sq (ColExpr.sub (ColExpr.col "HillasReconstructor_core_y")
        (ColExpr.col "pos_y"))))

/-- The two transformations defined by `feature_generation`. -/
def featureGenerationTransforms : List Transform :=
  [ Transform.repoExpr "awesome_feature" awesome_feature_expr
  , Transform.repoExpr "impact" impact_expr ]

/-- Every transformation the notebooks apply to data, in source order:
the loading/column operations of `read_events` and `preprocess`, the two
columns added by `feature_generation`, the dataset assembly and split, and
the torchvision input transforms. -/
def dataTransformations : List Transform :=
  [ Transform.libraryCall "table.remove_columns"
  , Transform.libraryCall "table.to_pandas"
  , Transform.libraryCall "df.filter"
  , Transform.libraryCall "df.select_dtypes"
  , Transform.libraryCall "df.drop"
  , Transform.libraryCall "df.count"
  , Transform.libraryCall "df.drop"
  , Transform.libraryCall "df.describe"
  , Transform.libraryCall "df.drop"
  , Transform.libraryCall "df.dropna"
  , Transform.repoExpr "awesome_feature" awesome_feature_expr
  , Transform.repoExpr "impact" impact_expr
  , Transform.libraryCall "pd.concat"
  , Transform.libraryCall "np.ones"
  , Transform.libraryCall "np.zeros"
  , Transform.libraryCall "np.concatenate"
  , Transform.libraryCall "train_test_split"
  , Transform.libraryCall "Resize"
  , Transform.libraryCall "ToTensor"
  , Transform.libraryCall "Compose" ]

/-- Is the transformation a single library-provided operation (rather than
an expression defined by the repository)? -/
def isLibraryProvided : Transform → Bool
  | Transform.libraryCall _ => true
  | Transform.repoExpr _ _ => false

/-! ## `train_test_split` and the boosting notebook's unpacking -/

/-- Number of test rows for `n` samples under the default
`test_size=0.25`: `ceil(0.25 * n)`, as scikit-learn computes it. -/
def n_test (n : Nat) : Nat := (n + 3) / 4

/-- Number of training rows: the remaining `floor(0.75 * n)`. -/
def n_train (n : Nat) : Nat := n - n_test n

/-- Model of `sklearn.model_selection.train_test_split(X, y)` with default
arguments: the rows are shuffled, the first `n_test` shuffled rows form
the test split and the rest the training split, and the returned tuple is
`(X_train, X_test, y_train, y_test)`.  The random shuffle is abstracted by
taking `X` and `y` to be the already-permuted rows; `X` and `y` are split
at the same positions. -/
def train_test_split {α β : Type} (X : List α) (y : List β) :
    List α × List α × List β × List β :=
  ( X.drop (n_test X.length), X.take (n_test X.length)
  , y.drop (n_test X.length), y.take (n_test X.length) )

/-- The four variables bound by the boosting notebook's split cell. -/
structure NotebookSplit (α β : Type) where
  X_test : List α
  X_train : List α
  y_test : List β
  y_train : List β

/-- The notebook's unpacking
`X_test, X_train, y_test, y_train = train_test_split(X, y)`:
positional assignment of the library's four return values. -/
def notebookSplit {α β : Type} (X : List α) (y : List β) : NotebookSplit α β :=
  ⟨(train_test_split X y).1, (train_test_split X y).2.1,
   (train_test_split X y).2.2.1, (train_test_split X y).2.2.2⟩

/-- The classifier `fit` calls of the boosting notebook. -/
def isSklearnFit (c : PyCall) : Bool :=
  ["rf.fit", "ada.fit", "grb.fit"].contains c.callee

/-- The classifier `predict`/`predict_proba` calls of the boosting
notebook. -/
def isSklearnPredict (c : PyCall) : Bool :=
  [ "rf.predict", "rf.predict_proba", "ada.predict", "ada.predict_proba"
  , "grb.predict", "grb.predict_proba" ].contains c.callee

/-! ## Semantic layer: the torch notebook's evaluation helpers

A dataloader is modelled as the list of batches it yields; a model as a
function from one input to the list of its per-class scores. -/

/-- One batch yielded by a dataloader: inputs and integer class labels. -/
structure Batch (X : Type) where
  xs : List X
  ys : List Nat
deriving DecidableEq, Repr

/-- Scan for the index of the first maximal entry. -/
def argmaxGo (best : ℚ) (bestIdx i : Nat) : List ℚ → Nat
  | [] => bestIdx
  | q :: qs =>
      if best < q then argmaxGo q i (i + 1) qs else argmaxGo best bestIdx (i + 1) qs

/-- `torch.argmax` along the class dimension: index of the first maximal
entry (0 on an empty list). -/
def argmax : List ℚ → Nat
  | [] => 0
  | q :: qs => argmaxGo q 0 1 qs

/-- `model(X).argmax(1)` for one batch: the predicted class of each
sample. -/
def batchPreds {X : Type} (model : X → List ℚ) (b : Batch X) : List Nat :=
  b.xs.map fun x => argmax (model x)

/-- `(pred == y).sum()`: number of positions where two label sequences
agree. -/
def countMatches (p t : List Nat) : Nat :=
  (p.zip t).countP fun z => z.1 == z.2

/-- The loop of `accuracy`, accumulating `(correct, total)` over the
batches: `total += len(y)` and `correct += (model(X).argmax(1) ==
y).sum()` per batch. -/
def accuracyLoop {X : Type} (model : X → List ℚ) :
    List (Batch X) → Nat × Nat → Nat × Nat
  | [], acc => acc
  | b :: bs, acc =>
      accuracyLoop model bs
        (acc.1 + countMatches (batchPreds model b) b.ys, acc.2 + b.ys.length)

/-- `accuracy(dataloader, model)` from the torch notebook: `correct /
total` after the loop (the device moves and `eval` mode do not affect the
computed value and are dropped in the embedding). -/
def accuracy {X : Type} (dl : List (Batch X)) (model : X → List ℚ) : ℚ :=
  ((accuracyLoop model dl (0, 0)).1 : ℚ) / ((accuracyLoop model dl (0, 0)).2 : ℚ)

/-- `predictions(dataloader, model)` from the torch notebook: the
per-batch predicted labels and true labels, each concatenated with
`torch.cat` in batch order. -/
def predictions {X : Type} (dl : List (Batch X)) (model : X → List ℚ) :
    List Nat × List Nat :=
  ((dl.map (batchPreds model)).flatten, (dl.map Batch.ys).flatten)

/-! ## Error propagation through `read_events` and `train`

The library primitives are parameters returning `Except`: a library call
that raises an exception is modelled as returning `Except.error`.  The
notebook functions contain no `try`/`except`, so their embeddings simply
sequence the calls. -/

/-- `read_events` from the boosting notebook over fallible ctapipe/astropy
primitives.  Each step runs only when the previous one returned normally;
an error value is returned as-is, mirroring how an uncaught Python
exception propagates. -/
def read_eventsE {E Loader Table DF : Type}
    (tableLoader : String → Except E Loader)
    (readTelescopeEvents : Loader → Except E Table)
    (removeColumns : Table → List String → Except E Table)
    (toPandas : Table → Except E DF) (path : String) : Except E DF :=
  match tableLoader path with
  | Except.error e => Except.error e
  | Except.ok loader =>
    match readTelescopeEvents loader with
    | Except.error e => Except.error e
    | Except.ok table =>
      match removeColumns table ["tels_with_trigger", "HillasReconstructor_tel_ids"] with
      | Except.error e => Except.error e
      | Except.ok table' => toPandas table'

/-- The loop of `train` from the torch notebook over fallible torch
primitives.  Per batch, in source order: `pred = model(X)`,
`loss = loss_fn(pred, y)`, then `zero_grad`/`backward`/`step` (merged into
one model-updating primitive `optStep`, with the optimizer state bundled
into the model type), and finally `losses.append(loss.item())`.  An error
from any primitive is returned as-is. -/
def trainE {E M Xb Yb P L : Type}
    (forward : M → Xb → Except E P) (lossFn : P → Yb → Except E L)
    (itemF : L → ℚ) (optStep : M → L → Except E M) :
    List (Xb × Yb) → M → Except E (List ℚ × M)
  | [], m => Except.ok ([], m)
  | b :: bs, m =>
    match forward m b.1 with
    | Except.error e => Except.error e
    | Except.ok pred =>
      match lossFn pred b.2 with
      | Except.error e => Except.error e
      | Except.ok loss =>
        match optStep m loss with
        | Except.error e => Except.error e
        | Except.ok m' =>
          match trainE forward lossFn itemF optStep bs m' with
          | Except.error e => Except.error e
          | Except.ok r => Except.ok (itemF loss :: r.1, r.2)

/-! ## The boosting notebook's order of operations -/

/-- The data-loading, fitting, prediction and evaluation events of
`smd_boosting.ipynb`, in cell order.  The two uses of the variable `rf`
denote distinct classifier objects and get distinct identifiers (`tree`,
`forest`); `cv_tree` is the estimator handed to `cross_validate`, which
fits and scores internally. -/
inductive BoostEvent
  | loadData
  | split
  | newModel (m : String)
  | fit (m : String)
  | predict (m : String)
  | predictProba (m : String)
  | stagedPredict (m : String)
  | crossValidate (m : String)
  | metric
  | plotMetric
deriving DecidableEq, Repr

/-- The event sequence of `smd_boosting.ipynb` (feature-importance
plotting, histograms and markdown cells carry no event). -/
def boostEvents : List BoostEvent :=
  [ BoostEvent.loadData                  -- gammas = read_events(gamma_path)
  , BoostEvent.loadData                  -- protons = read_events(proton_path)
  , BoostEvent.split                     -- train_test_split(X, y)
  , BoostEvent.newModel "tree", BoostEvent.fit "tree"
  , BoostEvent.predict "tree", BoostEvent.predictProba "tree"
  , BoostEvent.metric, BoostEvent.metric, BoostEvent.metric
  , BoostEvent.plotMetric                -- ROC scatter plot
  , BoostEvent.newModel "cv_tree", BoostEvent.crossValidate "cv_tree"
  , BoostEvent.newModel "ada", BoostEvent.fit "ada"
  , BoostEvent.predict "ada", BoostEvent.predictProba "ada"
  , BoostEvent.stagedPredict "ada"       -- ada.staged_score
  , BoostEvent.plotMetric                -- staged accuracy plot
  , BoostEvent.metric, BoostEvent.metric, BoostEvent.metric
  , BoostEvent.plotMetric
  , BoostEvent.newModel "grb", BoostEvent.fit "grb"
  , BoostEvent.predict "grb", BoostEvent.predictProba "grb"
  , BoostEvent.stagedPredict "grb"       -- grb.staged_predict
  , BoostEvent.metric                    -- accuracy_score per stage
  , BoostEvent.plotMetric                -- staged accuracy plot
  , BoostEvent.metric, BoostEvent.metric, BoostEvent.metric
  , BoostEvent.plotMetric
  , BoostEvent.newModel "forest", BoostEvent.fit "forest"
  , BoostEvent.predict "forest", BoostEvent.predictProba "forest"
  , BoostEvent.metric, BoostEvent.metric, BoostEvent.metric
  , BoostEvent.plotMetric ]

/-- Fitting of the model named `m`. -/
def isFitOn (m : String) : BoostEvent → Bool
  | BoostEvent.fit m' => m' == m
  | _ => false

/-- Any fit event. -/
def isFitEvent : BoostEvent → Bool
  | BoostEvent.fit _ => true
  | _ => false

/-- Querying the model named `m` for predictions. -/
def isPredictOn (m : String) : BoostEvent → Bool
  | BoostEvent.predict m' => m' == m
  | BoostEvent.predictProba m' => m' == m
  | BoostEvent.stagedPredict m' => m' == m
  | _ => false

/-- Any prediction event. -/
def isPredictEvent : BoostEvent → Bool
  | BoostEvent.predict _ => true
  | BoostEvent.predictProba _ => true
  | BoostEvent.stagedPredict _ => true
  | _ => false

/-- A metric computation (`accuracy_score`, `roc_auc_score`,
`roc_curve`). -/
def isMetricEvent : BoostEvent → Bool
  | BoostEvent.metric => true
  | _ => false

/-- Plotting of computed metrics. -/
def isPlotEvent : BoostEvent → Bool
  | BoostEvent.plotMetric => true
  | _ => false

/-- Every `q`-event of the list is preceded (strictly earlier in the list)
by some `p`-event; `seen` records whether a `p`-event has occurred. -/
def precededBy (p q : BoostEvent → Bool) : List BoostEvent → Bool → Bool
  | [], _ => true
  | e :: es, seen => (!q e || seen) && precededBy p q es (seen || p e)

/-- The model identifiers fitted in the boosting notebook. -/
def boostModels : List String := ["tree", "ada", "grb", "forest"]

/-! ## Provenance of the torch notebook's building blocks -/

/-- A repository-defined function that iterates over the batches of a
dataloader and performs backpropagation and an optimizer update inside the
loop — i.e. it implements a training loop itself. -/
def isTrainingLoopDef (d : PyDef) : Bool :=
  d.containsForLoop &&
    d.bodyCalls.any (fun c => c.callee == "loss.backward") &&
    d.bodyCalls.any (fun c => c.callee == "optimizer.step")

/-- Callees occurring in the torch notebook's definitions that resolve to
library code (torch modules and methods of library objects, Python
builtins, matplotlib/numpy): each name can be checked against the
notebook's imports and assignments. -/
def torchLibraryCallees : List String :=
  [ "super", "super().__init__"
  , "nn.Sequential", "nn.Linear", "nn.ReLU", "nn.Softmax", "nn.Flatten"
  , "nn.BatchNorm1d", "nn.Dropout", "nn.LeakyReLU", "nn.Conv2d"
  , "nn.BatchNorm2d", "nn.MaxPool2d"
  , "self.flatten", "self.fc", "self.fc_stack", "self.conv_stack"
  , "self.linear_relu_stack"
  , "model.to", "model.train", "model.eval", "model", "model.parameters"
  , "X.to", "y.to", "loss_fn", "optimizer.zero_grad", "loss.backward"
  , "optimizer.step", "losses.append", "loss.item", "test_losses.append"
  , "train_losses.append", "item", "len", "pred.argmax", "type", "sum"
  , "torch.no_grad", "torch.cat", "predictions.append", "truth.append"
  , "argmax", "print"
  , "plt.figure", "plt.plot", "plt.xlabel", "plt.legend", "enumerate"
  , "zip", "np.array", "np.linspace", "np.arange", "losses.ravel"
  , "losses.mean" ]

/-- The functions and classes the torch notebook defines itself. -/
def torchNotebookNames : List String :=
  [ "train", "test", "fit_one_epoch", "accuracy", "predictions"
  , "report_accuracy", "plot_losses", "FullyConnected"
  , "ConvolutionalNetwork" ]

/-- A layer constructor from the deep-learning library. -/
def isLayerConstructor (c : PyCall) : Bool :=
  strStartsWith "nn." c.callee

/-- The call made by the first cell of each notebook. -/
def tocScriptCall : PyCall :=
  ⟨"$.getScript",
   ["https://kmahelona.github.io/ipython_notebook_goodies/ipython_notebook_toc.js"]⟩

/-- All functions defined by notebook code in the repository. -/
def allDefs : List PyDef := boostingDefs ++ torchDefs

/-! ## Theorems -/

/-- C1 counterexample: not every transformation applied to the data is
library-provided.  The column `awesome_feature` is assigned a
repository-defined arithmetic expression over existing columns inside
`feature_generation`, so the universal claim fails on it. -/
theorem c1_transform_counterexample :
    Transform.repoExpr "awesome_feature" awesome_feature_expr ∈ dataTransformations ∧
    isLibraryProvided (Transform.repoExpr "awesome_feature" awesome_feature_expr)
      = false ∧
    (dataTransformations.all isLibraryProvided) = false := by
  decide

/-- C1 (amended): every transformation the notebooks apply to the data is
a single library-provided operation except the two column assignments of
`feature_generation`, which are repository-defined expressions with
input-output specifications of their own:
`awesome_feature = hillas_intensity * (hillas_width / hillas_length)` and
`impact = sqrt((core_x - pos_x)^2 + (core_y - pos_y)^2)`. -/
theorem c1_feature_generation_transforms :
    (dataTransformations.all fun t =>
      isLibraryProvided t || featureGenerationTransforms.contains t) = true ∧
    (∀ (s : ℚ → ℚ) (row : String → ℚ),
      evalColExpr s row awesome_feature_expr =
        row "hillas_intensity" * (row "hillas_width" / row "hillas_length")) ∧
    (∀ (s : ℚ → ℚ) (row : String → ℚ),
      evalColExpr s row impact_expr =
        s ((row "HillasReconstructor_core_x" - row "pos_x") ^ 2 +
            (row "HillasReconstructor_core_y" - row "pos_y") ^ 2)) :=
  ⟨by decide, fun _ _ => rfl, fun _ _ => rfl⟩

/-- C2 counterexample: the torch notebook itself defines `train`, a
function that iterates over the dataloader's batches and performs
backpropagation and the optimizer update inside its own loop — a training
loop implemented by the repository — and it defines network architecture
classes of its own. -/
theorem c2_training_loop_counterexample :
    train_def ∈ torchDefs ∧
    isTrainingLoopDef train_def = true ∧
    (torchDefs.all fun d => !isTrainingLoopDef d) = false ∧
    torchClasses ≠ [] := by
  decide

/-- C2 (amended): the repository implements the batch-iteration training
loop (`train`, with `test` and `fit_one_epoch` around it) and assembles
the network architectures itself, but every call made inside the torch
notebook's definitions is either a library call or a call to another
notebook-defined function, and every layer of the architecture classes is
a library-provided `nn.*` constructor. -/
theorem c2_repo_glue_over_library_primitives :
    (torchDefs.all fun d =>
      d.bodyCalls.all fun c =>
        torchLibraryCallees.contains c.callee ||
          torchNotebookNames.contains c.callee) = true ∧
    ([fullyConnected1_init_def, fullyConnected2_init_def,
        convolutionalNetwork_init_def].all fun d =>
      d.bodyCalls.all fun c =>
        isLayerConstructor c || strStartsWith "super" c.callee) = true := by
  exact ⟨by decide, by decide⟩

/-- C7 counterexample: the first cell of each notebook fetches the
table-of-contents helper script from an external URL, an external resource
that is neither a simulation data file nor one of the public image
datasets. -/
theorem c7_toc_script_counterexample :
    tocScriptCall ∈ allCalls ∧
    fetchesExternalResource tocScriptCall = true ∧
    isSimulationDataAccess tocScriptCall = false ∧
    isImageDatasetDownload tocScriptCall = false ∧
    (allCalls.all fun c =>
      !fetchesExternalResource c ||
        isSimulationDataAccess c || isImageDatasetDownload c) = false := by
  refine ⟨by decide, rfl, rfl, rfl, by decide⟩

/-- C7 (amended): every external resource fetched by notebook code is a
pre-existing simulation data file accessed via the dataset-path utility,
a download of MNIST or CIFAR-10 via the dataset library, or the
table-of-contents script loaded by each notebook's first cell. -/
theorem c7_external_fetches :
    (allCalls.all fun c =>
      !fetchesExternalResource c ||
        isSimulationDataAccess c || isImageDatasetDownload c ||
          isTocScriptFetch c) = true := by
  decide

/-- C8: in the boosting notebook, both event datasets are loaded before
any classifier is fitted; every model is fitted before it is queried for
predictions; every metric computation is preceded by a prediction; every
metric plot is preceded by a metric computation; and every prediction
event belongs to one of the four fitted classifiers. -/
theorem c8_fit_before_predict_before_metrics :
    ((boostEvents.takeWhile fun e => !isFitEvent e).count BoostEvent.loadData
      = 2) ∧
    (boostModels.all fun m =>
      precededBy (isFitOn m) (isPredictOn m) boostEvents false) = true ∧
    (precededBy isPredictEvent isMetricEvent boostEvents false) = true ∧
    (precededBy isMetricEvent isPlotEvent boostEvents false) = true ∧
    (boostEvents.all fun e =>
      !isPredictEvent e || boostModels.any fun m => isPredictOn m e) = true := by
  refine ⟨by decide, by decide, by decide, by decide, by decide⟩

/-- The test fraction never exceeds the number of samples. -/
theorem n_test_le (n : Nat) : n_test n ≤ n := by
  unfold n_test
  omega

/-- C4: the boosting notebook's unpacking binds the library's first return
value — the training split, `floor(0.75 * n)` rows — to `X_test` and the
second — the `ceil(0.25 * n)`-row test split — to `X_train` (likewise for
`y`), and every classifier `fit` in the notebook receives `X_train`,
`y_train` while every `predict`/`predict_proba` receives `X_test`: the
models are fitted on the 25% portion and evaluated on the 75% portion. -/
theorem c4_split_swap_fits_on_quarter {α β : Type} (X : List α) (y : List β) :
    (notebookSplit X y).X_test = X.drop (n_test X.length) ∧
    (notebookSplit X y).X_train = X.take (n_test X.length) ∧
    (notebookSplit X y).y_test = y.drop (n_test X.length) ∧
    (notebookSplit X y).y_train = y.take (n_test X.length) ∧
    (notebookSplit X y).X_train.length = n_test X.length ∧
    (notebookSplit X y).X_test.length = X.length - n_test X.length ∧
    n_test X.length = (X.length + 3) / 4 ∧
    ((boostingCalls.filter isSklearnFit).all fun c =>
      c.args == ["X_train", "y_train"]) = true ∧
    ((boostingCalls.filter isSklearnPredict).all fun c =>
      c.args == ["X_test"]) = true := by
  refine ⟨rfl, rfl, rfl, rfl, ?_, ?_, rfl, by decide, by decide⟩
  · have h := n_test_le X.length
    simp only [notebookSplit, train_test_split, List.length_take]
    omega
  · simp only [notebookSplit, train_test_split, List.length_drop]

/-- C5: for every input dataframe, every column of `preprocess df` has a
numeric dtype, a name that does not match the forbidden pattern, and no
missing (NaN) entry. -/
theorem c5_preprocess_clean (df : DataFrame) :
    ∀ c ∈ preprocess df,
      c.dtype = Dtype.numeric ∧ matchesForbidden c.name = false ∧
        ∀ v ∈ c.values, v ≠ Cell.nan := by
  intro c hc
  unfold preprocess dropna at hc
  rw [List.mem_map] at hc
  obtain ⟨c₀, hc₀, rfl⟩ := hc
  have hfilters := hc₀
  unfold dropConstantCols at hfilters
  rw [List.mem_filter] at hfilters
  obtain ⟨hfilters, -⟩ := hfilters
  unfold dropEmptyCols at hfilters
  rw [List.mem_filter] at hfilters
  obtain ⟨hfilters, -⟩ := hfilters
  unfold dropNonNumeric at hfilters
  rw [List.mem_filter] at hfilters
  obtain ⟨hfilters, hnum⟩ := hfilters
  unfold filterForbidden at hfilters
  rw [List.mem_filter] at hfilters
  obtain ⟨-, hforb⟩ := hfilters
  refine ⟨by simpa using hnum, by simpa using hforb, ?_⟩
  intro v hv
  simp only [List.mem_filterMap, List.mem_filter, List.mem_range] at hv
  obtain ⟨i, ⟨-, hrow⟩, hget⟩ := hv
  unfold rowComplete at hrow
  rw [List.all_eq_true] at hrow
  have hcell := hrow c₀ hc₀
  rw [hget] at hcell
  simpa using hcell

/-- C5 witness: `preprocess` applied to a concrete one-column frame. -/
theorem c5_preprocess_clean_witness :
    (⟨"x", Dtype.numeric, [Cell.num 1, Cell.num 2]⟩ : Col) ∈
      preprocess [⟨"x", Dtype.numeric, [Cell.num 1, Cell.num 2]⟩] ∧
    ((⟨"x", Dtype.numeric, [Cell.num 1, Cell.num 2]⟩ : Col).dtype = Dtype.numeric ∧
      matchesForbidden "x" = false ∧
      ∀ v ∈ [Cell.num (1 : ℚ), Cell.num 2], v ≠ Cell.nan) := by
  have hnv : numericVals ⟨"x", Dtype.numeric, [Cell.num 1, Cell.num 2]⟩ = [1, 2] := rfl
  have hv : sampleVariance
      (numericVals ⟨"x", Dtype.numeric, [Cell.num 1, Cell.num 2]⟩) ≠ 0 := by
    rw [hnv]
    norm_num [sampleVariance, listMean]
  have hstd : stdIsZero ⟨"x", Dtype.numeric, [Cell.num 1, Cell.num 2]⟩ = false := by
    simp [stdIsZero, hv]
  have h1 : filterForbidden [⟨"x", Dtype.numeric, [Cell.num 1, Cell.num 2]⟩] =
      [⟨"x", Dtype.numeric, [Cell.num 1, Cell.num 2]⟩] := by decide
  have h2 : dropNonNumeric [⟨"x", Dtype.numeric, [Cell.num 1, Cell.num 2]⟩] =
      [⟨"x", Dtype.numeric, [Cell.num 1, Cell.num 2]⟩] := by decide
  have h3 : dropEmptyCols [⟨"x", Dtype.numeric, [Cell.num 1, Cell.num 2]⟩] =
      [⟨"x", Dtype.numeric, [Cell.num 1, Cell.num 2]⟩] := by decide
  have h4 : dropConstantCols [⟨"x", Dtype.numeric, [Cell.num 1, Cell.num 2]⟩] =
      [⟨"x", Dtype.numeric, [Cell.num 1, Cell.num 2]⟩] := by
    simp [dropConstantCols, List.filter_cons, hstd]
  have h5 : dropna [⟨"x", Dtype.numeric, [Cell.num 1, Cell.num 2]⟩] =
      [⟨"x", Dtype.numeric, [Cell.num 1, Cell.num 2]⟩] := by decide
  have hall : preprocess [⟨"x", Dtype.numeric, [Cell.num 1, Cell.num 2]⟩] =
      [⟨"x", Dtype.numeric, [Cell.num 1, Cell.num 2]⟩] := by
    unfold preprocess
    rw [h1, h2, h3, h4, h5]
  have hmem : (⟨"x", Dtype.numeric, [Cell.num 1, Cell.num 2]⟩ : Col) ∈
      preprocess [⟨"x", Dtype.numeric, [Cell.num 1, Cell.num 2]⟩] := by
    rw [hall]
    exact List.mem_singleton.mpr rfl
  exact ⟨hmem, c5_preprocess_clean _ _ hmem⟩

/-- Unrolling the `accuracy` loop: the accumulated pair is the running
total plus the per-batch match counts and label counts. -/
theorem accuracyLoop_eq {X : Type} (model : X → List ℚ) (dl : List (Batch X))
    (c t : Nat) :
    accuracyLoop model dl (c, t) =
      (c + (dl.map fun b => countMatches (batchPreds model b) b.ys).sum,
       t + (dl.map fun b => b.ys.length).sum) := by
  induction dl generalizing c t with
  | nil => simp [accuracyLoop]
  | cons b bs ih => simp [accuracyLoop, ih, Nat.add_assoc]

/-- Matching positions in concatenations count blockwise when the first
blocks have equal length. -/
theorem countMatches_append {p₁ t₁ p₂ t₂ : List Nat}
    (h : p₁.length = t₁.length) :
    countMatches (p₁ ++ p₂) (t₁ ++ t₂) = countMatches p₁ t₁ + countMatches p₂ t₂ := by
  unfold countMatches
  rw [List.zip_append h, List.countP_append]

/-- At most every position matches. -/
theorem countMatches_le_right (p t : List Nat) : countMatches p t ≤ t.length := by
  unfold countMatches
  calc List.countP (fun z => z.1 == z.2) (p.zip t) ≤ (p.zip t).length :=
        List.countP_le_length _
    _ ≤ t.length := by
        rw [List.length_zip]
        exact inf_le_right

/-- The matches of the concatenated prediction/label tensors are the sum
of the per-batch matches. -/
theorem predictions_countMatches {X : Type} (model : X → List ℚ) :
    ∀ dl : List (Batch X), (∀ b ∈ dl, b.xs.length = b.ys.length) →
      countMatches (predictions dl model).1 (predictions dl model).2 =
        (dl.map fun b => countMatches (batchPreds model b) b.ys).sum := by
  intro dl
  induction dl with
  | nil => intro _; rfl
  | cons b bs ih =>
    intro h
    have hlen : (batchPreds model b).length = b.ys.length := by
      unfold batchPreds
      rw [List.length_map]
      exact h b (List.mem_cons_self b bs)
    have hrest := ih fun b' hb' => h b' (List.mem_cons_of_mem b hb')
    unfold predictions at hrest ⊢
    simp only [List.map_cons, List.flatten_cons]
    rw [countMatches_append hlen, hrest, List.sum_cons]

/-- Both concatenated tensors have the total number of labels as their
length. -/
theorem predictions_length {X : Type} (model : X → List ℚ)
    (dl : List (Batch X)) (h : ∀ b ∈ dl, b.xs.length = b.ys.length) :
    (predictions dl model).1.length = (dl.map fun b => b.ys.length).sum ∧
    (predictions dl model).2.length = (dl.map fun b => b.ys.length).sum := by
  constructor
  · unfold predictions
    rw [List.length_flatten, List.map_map]
    refine congrArg List.sum (List.map_congr_left fun b hb => ?_)
    unfold batchPreds
    simp only [Function.comp_apply, List.length_map]
    exact h b hb
  · unfold predictions
    rw [List.length_flatten, List.map_map]
    rfl

/-- The value of `accuracy` as a quotient of the two accumulated sums. -/
theorem accuracy_eq_sums {X : Type} (dl : List (Batch X)) (model : X → List ℚ) :
    accuracy dl model =
      (((dl.map fun b => countMatches (batchPreds model b) b.ys).sum : ℕ) : ℚ) /
        (((dl.map fun b => b.ys.length).sum : ℕ) : ℚ) := by
  have h := accuracyLoop_eq model dl 0 0
  unfold accuracy
  rw [h]
  norm_num

/-- C6: for well-formed batches, `accuracy` equals the number of agreeing
positions of the two tensors returned by `predictions`, divided by their
common length, and lies between 0 and 1. -/
theorem c6_accuracy_eq_matching_fraction {X : Type} (dl : List (Batch X))
    (model : X → List ℚ) (hne : dl ≠ [])
    (hwf : ∀ b ∈ dl, b.xs.length = b.ys.length)
    (hb : ∀ b ∈ dl, b.ys ≠ []) :
    (predictions dl model).1.length = (predictions dl model).2.length ∧
    accuracy dl model =
      (countMatches (predictions dl model).1 (predictions dl model).2 : ℚ) /
        ((predictions dl model).1.length : ℚ) ∧
    0 ≤ accuracy dl model ∧ accuracy dl model ≤ 1 := by
  obtain ⟨hlen1, hlen2⟩ := predictions_length model dl hwf
  have hcm := predictions_countMatches model dl hwf
  have hacc := accuracy_eq_sums dl model
  have hle : (dl.map fun b => countMatches (batchPreds model b) b.ys).sum ≤
      (dl.map fun b => b.ys.length).sum :=
    List.sum_le_sum fun b _ => countMatches_le_right _ _
  have hpos : 0 < (dl.map fun b => b.ys.length).sum := by
    obtain ⟨b, bs, rfl⟩ := List.exists_cons_of_ne_nil hne
    have hys : b.ys ≠ [] := hb b (List.mem_cons_self b bs)
    have h1 : 0 < b.ys.length := List.length_pos.2 hys
    simp only [List.map_cons, List.sum_cons]
    omega
  refine ⟨by rw [hlen1, hlen2], by rw [hacc, hcm, hlen1], ?_, ?_⟩
  · rw [hacc]
    exact div_nonneg (Nat.cast_nonneg _) (Nat.cast_nonneg _)
  · rw [hacc, div_le_one (by exact_mod_cast hpos)]
    exact_mod_cast hle

/-- C6 witness: a one-batch dataloader with one correctly classified
sample. -/
theorem c6_accuracy_witness :
    0 ≤ accuracy ([⟨[0], [0]⟩] : List (Batch Nat)) (fun _ => [1]) ∧
    accuracy ([⟨[0], [0]⟩] : List (Batch Nat)) (fun _ => [1]) ≤ 1 := by
  have h := c6_accuracy_eq_matching_fraction ([⟨[0], [0]⟩] : List (Batch Nat))
    (fun _ => [1]) (by decide) (by decide) (by decide)
  exact ⟨h.2.2.1, h.2.2.2⟩

/-- Splitting the `train` loop after a successfully processed prefix. -/
theorem trainE_ok_append {E M Xb Yb P L : Type} (fwd : M → Xb → Except E P)
    (lossFn : P → Yb → Except E L) (itemF : L → ℚ)
    (optStep : M → L → Except E M) (bs₂ : List (Xb × Yb)) :
    ∀ (bs₁ : List (Xb × Yb)) (m m₁ : M) (ls : List ℚ),
      trainE fwd lossFn itemF optStep bs₁ m = Except.ok (ls, m₁) →
      trainE fwd lossFn itemF optStep (bs₁ ++ bs₂) m =
        match trainE fwd lossFn itemF optStep bs₂ m₁ with
        | Except.error e => Except.error e
        | Except.ok r => Except.ok (ls ++ r.1, r.2) := by
  intro bs₁
  induction bs₁ with
  | nil =>
    intro m m₁ ls h
    simp only [trainE, Except.ok.injEq, Prod.mk.injEq] at h
    obtain ⟨rfl, rfl⟩ := h
    simp only [List.nil_append]
    cases trainE fwd lossFn itemF optStep bs₂ m with
    | error e => rfl
    | ok r => rfl
  | cons hd tl ih =>
    intro m m₁ ls h
    rw [List.cons_append]
    rw [trainE] at h
    rw [trainE]
    cases hf : fwd m hd.1 with
    | error e => simp [hf] at h
    | ok pred =>
    simp only [hf] at h ⊢
    cases hl : lossFn pred hd.2 with
    | error e => simp [hl] at h
    | ok loss =>
    simp only [hl] at h ⊢
    cases ho : optStep m loss with
    | error e => simp [ho] at h
    | ok m' =>
    simp only [ho] at h ⊢
    cases ht : trainE fwd lossFn itemF optStep tl m' with
    | error e => simp [ht] at h
    | ok r =>
    simp only [ht, Except.ok.injEq, Prod.mk.injEq] at h
    obtain ⟨hls, hm⟩ := h
    rw [ih m' m₁ r.1 (by rw [ht, ← hm])]
    cases trainE fwd lossFn itemF optStep bs₂ m₁ with
    | error e => rfl
    | ok r₂ => rw [← hls]; rfl

/-- C3: no notebook-defined function contains a `try`/`except` or a
`raise`, and in the embeddings of `read_events` and of the `train` loop an
error of any underlying library call is returned to the caller unchanged:
the first failing call determines the result. -/
theorem c3_exceptions_propagate_unchanged :
    (allDefs.all fun d => !d.handlesErrors) = true ∧
    (∀ (E Loader Table DF : Type) (tl : String → Except E Loader)
        (rte : Loader → Except E Table)
        (rc : Table → List String → Except E Table)
        (tp : Table → Except E DF) (path : String) (e : E),
      (tl path = Except.error e →
        read_eventsE tl rte rc tp path = Except.error e) ∧
      (∀ l, tl path = Except.ok l → rte l = Except.error e →
        read_eventsE tl rte rc tp path = Except.error e) ∧
      (∀ l t, tl path = Except.ok l → rte l = Except.ok t →
        rc t ["tels_with_trigger", "HillasReconstructor_tel_ids"]
          = Except.error e →
        read_eventsE tl rte rc tp path = Except.error e) ∧
      (∀ l t t', tl path = Except.ok l → rte l = Except.ok t →
        rc t ["tels_with_trigger", "HillasReconstructor_tel_ids"]
          = Except.ok t' →
        tp t' = Except.error e →
        read_eventsE tl rte rc tp path = Except.error e)) ∧
    (∀ (E M Xb Yb P L : Type) (fwd : M → Xb → Except E P)
        (lossFn : P → Yb → Except E L) (itemF : L → ℚ)
        (optStep : M → L → Except E M) (bs₁ bs₂ : List (Xb × Yb))
        (b : Xb × Yb) (m m₁ : M) (ls : List ℚ) (e : E),
      trainE fwd lossFn itemF optStep bs₁ m = Except.ok (ls, m₁) →
      (fwd m₁ b.1 = Except.error e ∨
        (∃ pred, fwd m₁ b.1 = Except.ok pred ∧
          lossFn pred b.2 = Except.error e) ∨
        (∃ pred loss, fwd m₁ b.1 = Except.ok pred ∧
          lossFn pred b.2 = Except.ok loss ∧
          optStep m₁ loss = Except.error e)) →
      trainE fwd lossFn itemF optStep (bs₁ ++ b :: bs₂) m = Except.error e) := by
  refine ⟨by decide, ?_, ?_⟩
  · intro E Loader Table DF tl rte rc tp path e
    refine ⟨?_, ?_, ?_, ?_⟩
    · intro h1
      simp [read_eventsE, h1]
    · intro l h1 h2
      simp [read_eventsE, h1, h2]
    · intro l t h1 h2 h3
      simp [read_eventsE, h1, h2, h3]
    · intro l t t' h1 h2 h3 h4
      simp [read_eventsE, h1, h2, h3, h4]
  · intro E M Xb Yb P L fwd lossFn itemF optStep bs₁ bs₂ b m m₁ ls e h₁ hfail
    have hhead : trainE fwd lossFn itemF optStep (b :: bs₂) m₁
        = Except.error e := by
      rcases hfail with hf | ⟨pred, hp, hl⟩ | ⟨pred, loss, hp, hl, ho⟩
      · simp [trainE, hf]
      · simp [trainE, hp, hl]
      · simp [trainE, hp, hl, ho]
    rw [trainE_ok_append fwd lossFn itemF optStep (b :: bs₂) bs₁ m m₁ ls h₁, hhead]

/-- C3 witness: a loader whose file is missing, and a model whose forward
pass rejects the input shape. -/
theorem c3_propagation_witness :
    @read_eventsE String Unit Unit Unit (fun _ => Except.error "missing file")
      (fun _ => Except.ok ()) (fun _ _ => Except.ok ()) (fun _ => Except.ok ())
      "gamma.h5" = Except.error "missing file" ∧
    @trainE String Unit Unit Unit Unit Unit
      (fun _ _ => Except.error "malformed shape") (fun _ _ => Except.ok ())
      (fun _ => 0) (fun _ _ => Except.ok ()) [((), ())] ()
      = Except.error "malformed shape" := by
  constructor
  · exact (c3_exceptions_propagate_unchanged.2.1 String Unit Unit Unit
      (fun _ => Except.error "missing file") (fun _ => Except.ok ())
      (fun _ _ => Except.ok ()) (fun _ => Except.ok ())
      "gamma.h5" "missing file").1 rfl
  · exact c3_exceptions_propagate_unchanged.2.2 String Unit Unit Unit Unit Unit
      (fun _ _ => Except.error "malformed shape") (fun _ _ => Except.ok ())
      (fun _ => 0) (fun _ _ => Except.ok ()) [] [] ((), ()) () () []
      "malformed shape" rfl (Or.inl rfl)

/-- C9: no call made by notebook code spawns a thread or a process, and
every `DataLoader` is constructed without `num_workers` (so data loading
stays in the calling process); all parallelism lives inside the called
libraries. -/
theorem c9_no_thread_or_process_spawn :
    (allCalls.all fun c =>
      !spawnsThreadOrProcess c && !dataLoaderWithWorkers c) = true := by
  decide

end MLLecture
